/-
Verification of the SmartTraffic demo backend (src/server.ts) against its
natural-language specification.

The server is shallowly embedded: the SQLite tables become Lean lists,
the SQL aggregate queries become executable Lean functions over those
lists, the Express middleware and handlers become pure functions, and the
timer tick becomes a state-transition function.  SQL `SUM` over an empty
row set yields `NULL`, modelled as `Option`.  JavaScript timestamps are
modelled as natural numbers (seconds); `datetime('now', '-24 hours')`
becomes `now - 86400`, compared without truncation via `now < t + 86400`.
`Math.random()` is modelled as a rational draw `k / N` with `k < N`, so
`Math.floor(Math.random() * n)` becomes natural-number division
`(k * n) / N`.
-/
import Mathlib

namespace SmartTraffic

/-- One row of the `traffic_logs` table (src/server.ts CREATE TABLE
traffic_logs).  Byte counts are natural numbers: the only writer is the
generator, which produces values of `Math.floor` on a non-negative
number. -/
structure TrafficRecord where
  id : Nat
  timestamp : Nat
  source_ip : String
  destination_ip : String
  domain : String
  protocol : String
  upload_bytes : Nat
  download_bytes : Nat
deriving DecidableEq, Repr

/-- The single row of the `settings` table: `id` is CHECKed to be 1,
`data_limit_gb` is a REAL (modelled as a rational, only stored and read
back), `alerts_enabled` an INTEGER written as 0 or 1. -/
structure SettingsRow where
  id : Nat
  data_limit_gb : Rat
  alerts_enabled : Nat
deriving DecidableEq, Repr

/-- One row of the `users` table. -/
structure UserRow where
  id : Nat
  username : String
  email : String
  password_hash : String
deriving DecidableEq, Repr

/-- The fixed domain pool of the traffic simulator (src/server.ts,
`const domains = [...]`). -/
def domains : List String :=
  ["google.com", "github.com", "youtube.com", "netflix.com", "amazon.com",
   "facebook.com", "twitter.com", "reddit.com", "microsoft.com", "apple.com"]

/-- The fixed protocol pool of the traffic simulator (src/server.ts,
`const protocols = [...]`). -/
def protocols : List String :=
  ["HTTPS", "HTTP", "DNS", "TCP", "UDP"]

/-! ## SQL GROUP BY

`GROUP BY domain` (and `GROUP BY protocol`) is modelled by folding the
rows in table order into an association list keyed in order of first
occurrence, accumulating a numeric aggregate per key. -/

/-- Add `b` to the group of key `d`, appending a new group at the end if
the key is new.  Groups appear in order of first occurrence. -/
def addToGroups : List (String × Nat) → String → Nat → List (String × Nat)
  | [], d, b => [(d, b)]
  | (d', t) :: rest, d, b =>
      if d' = d then (d', t + b) :: rest else (d', t) :: addToGroups rest d b

/-- Look up a key's aggregate in a group list. -/
def getTotal : List (String × Nat) → String → Option Nat
  | [], _ => none
  | (d', t) :: rest, d => if d' = d then some t else getTotal rest d

/-- Group records by a key, accumulating a numeric aggregate per key. -/
def groupBy (k : TrafficRecord → String) (f : TrafficRecord → Nat)
    (recs : List TrafficRecord) : List (String × Nat) :=
  recs.foldl (fun gs r => addToGroups gs (k r) (f r)) []

/-- The query `SELECT domain, SUM(upload_bytes + download_bytes) ... GROUP BY domain`:
fold every record into groups keyed by domain. -/
def groupByDomain (recs : List TrafficRecord) : List (String × Nat) :=
  groupBy (fun r => r.domain) (fun r => r.upload_bytes + r.download_bytes) recs

/-- The query `SELECT protocol, COUNT(*) ... GROUP BY protocol`. -/
def groupByProtocol (recs : List TrafficRecord) : List (String × Nat) :=
  groupBy (fun r => r.protocol) (fun _ => 1) recs

/-- One entry of the `topDomains` result. -/
structure DomainTotal where
  domain : String
  total_bytes : Nat
deriving DecidableEq, Repr

/-- The `ORDER BY total_bytes DESC` step over the grouped domains: a stable sort,
so rows with equal totals keep their grouping order. -/
def sortedDomains (recs : List TrafficRecord) : List DomainTotal :=
  ((groupByDomain recs).map (fun g => DomainTotal.mk g.1 g.2)).insertionSort
    (fun a b => b.total_bytes ≤ a.total_bytes)

/-- The `topDomains` query of GET /api/traffic/summary: group all records
by domain with combined bytes, sort descending by the total, and keep the
first five (`LIMIT 5`). -/
def topDomains (recs : List TrafficRecord) : List DomainTotal :=
  (sortedDomains recs).take 5

/-- Combined bytes for domain `d` over a record list: the reference value
the grouped totals must match. -/
def totalFor (recs : List TrafficRecord) (d : String) : Nat :=
  ((recs.filter (fun r => r.domain = d)).map
    (fun r => r.upload_bytes + r.download_bytes)).sum

/-! ## Summary stats and history buckets -/

/-- SQL `SUM` over a column: `NULL` (here `none`) when there are no rows,
otherwise the sum. -/
def sqlSum (xs : List Nat) : Option Nat :=
  match xs with
  | [] => none
  | _ => some xs.sum

/-- The clause `WHERE timestamp > datetime('now', '-30 days')`: the record's
timestamp lies strictly inside the trailing 30 days (2592000 s),
written additively to avoid truncated subtraction. -/
def inWindow30 (now t : Nat) : Bool := now < t + 2592000

/-- The clause `WHERE timestamp > datetime('now', '-24 hours')` (86400 s). -/
def inWindow24 (now t : Nat) : Bool := now < t + 86400

/-- The `stats` object of GET /api/traffic/summary. -/
structure SummaryStats where
  total_upload : Option Nat
  total_download : Option Nat
  total_packets : Nat
deriving DecidableEq, Repr

/-- The query `SELECT SUM(upload_bytes), SUM(download_bytes), COUNT(*) FROM
traffic_logs WHERE timestamp > datetime('now','-30 days')`. -/
def summaryStats (now : Nat) (recs : List TrafficRecord) : SummaryStats :=
  let w := recs.filter (fun r => inWindow30 now r.timestamp)
  { total_upload := sqlSum (w.map (fun r => r.upload_bytes))
    total_download := sqlSum (w.map (fun r => r.download_bytes))
    total_packets := w.length }

/-- The expression `strftime('%Y-%m-%d %H:00:00', timestamp)` truncates a timestamp to
its hour; modelled numerically (the string format is order-isomorphic to
the hour number). -/
def hourOf (t : Nat) : Nat := t / 3600

/-- One row of the GET /api/traffic/history result. -/
structure HistoryBucket where
  hour : Nat
  upload : Nat
  download : Nat
deriving DecidableEq, Repr

/-- The records inside the trailing 24-hour window (`WHERE` clause of the
history query). -/
def window24 (now : Nat) (recs : List TrafficRecord) : List TrafficRecord :=
  recs.filter (fun r => inWindow24 now r.timestamp)

/-- The bucket keys of the history query: the distinct hours of the
windowed records, in ascending order (`GROUP BY hour ORDER BY hour ASC`). -/
def historyHours (now : Nat) (recs : List TrafficRecord) : List Nat :=
  (((window24 now recs).map (fun r => hourOf r.timestamp)).insertionSort (· ≤ ·)).dedup

/-- The bucket for hour `h`: upload and download bytes summed separately
over the windowed records of that hour. -/
def bucketFor (now : Nat) (recs : List TrafficRecord) (h : Nat) : HistoryBucket :=
  { hour := h
    upload := (((window24 now recs).filter (fun r => hourOf r.timestamp = h)).map
      (fun r => r.upload_bytes)).sum
    download := (((window24 now recs).filter (fun r => hourOf r.timestamp = h)).map
      (fun r => r.download_bytes)).sum }

/-- The history query: restrict to the trailing 24 hours, group by hour,
sum uploads and downloads separately, order ascending by hour. -/
def history (now : Nat) (recs : List TrafficRecord) : List HistoryBucket :=
  (historyHours now recs).map (bucketFor now recs)

/-! ## JWT model

`jsonwebtoken` is modelled abstractly: a token records the payload it was
signed over, the secret used, and an optional expiry claim.  `jwt.sign`
in the login handler passes no `expiresIn` option, so the issued token
carries no expiry claim.  `jwt.verify` checks the secret and, when an
expiry claim is present, that it has not passed; a failed check is the
thrown exception, modelled as `none`. -/

/-- The payload signed at login: `{ id: user.id, username: user.username }`. -/
structure JwtPayload where
  id : Nat
  username : String
deriving DecidableEq, Repr

/-- A signed token: payload, signing secret, optional `exp` claim. -/
structure JwtToken where
  payload : JwtPayload
  secret : String
  exp : Option Nat
deriving DecidableEq, Repr

/-- Model of `jwt.sign(payload, secret)` with no options: no expiry claim. -/
def jwtSign (p : JwtPayload) (secret : String) : JwtToken :=
  { payload := p, secret := secret, exp := none }

/-- Model of `jwt.verify(token, secret)` at time `now`: succeeds iff the signature
checks out (same secret) and any expiry claim is still in the future. -/
def jwtVerify (t : JwtToken) (secret : String) (now : Nat) : Option JwtPayload :=
  if t.secret = secret then
    match t.exp with
    | none => some t.payload
    | some e => if now < e then some t.payload else none
  else none

/-! ## Auth middleware -/

/-- JavaScript `String.prototype.split(" ")` on the character level:
split at every single space, keeping empty segments. -/
def splitOnSpace : List Char → List (List Char)
  | [] => [[]]
  | c :: rest =>
    if c = ' ' then [] :: splitOnSpace rest
    else
      match splitOnSpace rest with
      | [] => [[c]]
      | g :: gs => (c :: g) :: gs

/-- JS `s.split(" ")`. -/
def jsSplitSpace (s : String) : List String :=
  (splitOnSpace s.data).map String.mk

/-- The extraction `req.headers.authorization?.split(" ")[1]` followed by the JS
falsiness test `if (!token)`: `none` when the header is absent, has no
second space-separated part, or that part is the empty string. -/
def extractToken (header : Option String) : Option String :=
  match header with
  | none => none
  | some s =>
    match (jsSplitSpace s).get? 1 with
    | none => none
    | some t => if t = "" then none else some t

/-- Outcome of running a route behind the `authenticate` middleware:
either a rejection response (the handler never runs, so no handler value
exists) or the handler's value together with the decoded identity that
was attached to `req.user`. -/
inductive AuthResult (α : Type) where
  | rejected (status : Nat) (error : String)
  | handled (user : JwtPayload) (value : α)
deriving DecidableEq, Repr

/-- The `authenticate` middleware: 401 "Unauthorized" with no token,
401 "Invalid token" when verification throws, otherwise attach the
decoded payload and run the handler.  `verify` abstracts
`jwt.verify(token, JWT_SECRET)` on the presented token string. -/
def authenticate {α : Type} (verify : String → Option JwtPayload)
    (header : Option String) (handler : JwtPayload → α) : AuthResult α :=
  match extractToken header with
  | none => .rejected 401 "Unauthorized"
  | some t =>
    match verify t with
    | none => .rejected 401 "Invalid token"
    | some u => .handled u (handler u)

/-! ## Store and operations -/

/-- The database: the three tables of src/server.ts.  The settings table
is kept as a row list so that its singleton-ness is a provable invariant
rather than a typing artefact. -/
structure Store where
  traffic : List TrafficRecord
  settingsTable : List SettingsRow
  users : List UserRow
deriving Repr

/-- The settings table as seeded: exactly one row and its id is 1. -/
def settingsInv (s : Store) : Prop :=
  ∃ row, s.settingsTable = [row] ∧ row.id = 1

/-- GET /api/settings handler: `SELECT * FROM settings WHERE id = 1`. -/
def getSettingsHandler (s : Store) : Option SettingsRow :=
  s.settingsTable.find? (fun row => row.id = 1)

/-- POST /api/settings handler: `UPDATE settings SET data_limit_gb = ?,
alerts_enabled = ? WHERE id = 1`, with the JS coercion
`alerts_enabled ? 1 : 0`. -/
def postSettingsHandler (limit : Rat) (alerts : Bool) (s : Store) : Store :=
  { s with settingsTable := s.settingsTable.map (fun row =>
      if row.id = 1 then
        { row with data_limit_gb := limit, alerts_enabled := if alerts then 1 else 0 }
      else row) }

/-- Every state-relevant operation of the server, for the write-path
invariant: the three authenticated reads, the settings update, the
generator tick's insert, login and signup. -/
inductive Op where
  | summary (now : Nat)
  | histQuery (now : Nat)
  | getSettings
  | postSettings (limit : Rat) (alerts : Bool)
  | tick (r : TrafficRecord)
  | login (email password : String)
  | signup (u : UserRow)

/-- Effect of each operation on the store.  The three reads and login
run SELECT queries only; the tick runs the single INSERT into
traffic_logs; signup inserts into users; the settings POST updates the
id = 1 row in place. -/
def applyOp : Op → Store → Store
  | .summary _, s => s
  | .histQuery _, s => s
  | .getSettings, s => s
  | .postSettings l a, s => postSettingsHandler l a s
  | .tick r, s => { s with traffic := s.traffic ++ [r] }
  | .login _ _, s => s
  | .signup u, s => { s with users := s.users ++ [u] }

/-! ## Login -/

/-- Response of POST /api/auth/login: a 401 error body, or the signed
token plus the public user fields. -/
inductive LoginResult where
  | failure (status : Nat) (error : String)
  | success (token : JwtToken) (username email : String)
deriving DecidableEq, Repr

/-- The query `SELECT * FROM users WHERE email = ?` (`.get`: first match). -/
def findUser (users : List UserRow) (email : String) : Option UserRow :=
  users.find? (fun u => u.email = email)

/-- The login handler.  `compare` abstracts `bcrypt.compare(password,
hash)`.  A missing user and a failed hash comparison fall into the same
branch and produce the identical response. -/
def login (users : List UserRow) (compare : String → String → Bool)
    (email password secret : String) : LoginResult :=
  match findUser users email with
  | none => .failure 401 "Invalid credentials"
  | some u =>
    if compare password u.password_hash then
      .success (jwtSign { id := u.id, username := u.username } secret) u.username u.email
    else
      .failure 401 "Invalid credentials"

/-! ## Generator tick and broadcast -/

/-- The value `Math.floor(Math.random() * n)` where the random draw is `k / N`
(`k < N`): natural floor division. -/
def randIndex (k N n : Nat) : Nat := k * n / N

/-- The record synthesized by one tick of the 2-second interval, from six
independent draws `k₁..k₆ / N`. -/
def genRecord (rowid now k₁ k₂ k₃ k₄ k₅ k₆ N : Nat) : TrafficRecord :=
  { id := rowid
    timestamp := now
    source_ip := "192.168.1." ++ toString (randIndex k₅ N 255)
    destination_ip := "104.26.12." ++ toString (randIndex k₆ N 255)
    domain := domains.getD (randIndex k₁ N domains.length) ""
    protocol := protocols.getD (randIndex k₂ N protocols.length) ""
    upload_bytes := randIndex k₃ N 50000
    download_bytes := randIndex k₄ N 500000 }

/-- A websocket client as the broadcast loop sees it: its `readyState`. -/
structure WsClient where
  readyState : Nat
deriving DecidableEq, Repr

/-- The constant `WebSocket.OPEN`. -/
def WS_OPEN : Nat := 1

/-- Result of one generator tick: the traffic table after the INSERT and,
per connected client (by index), `none` when the client was skipped for
not being open, or `some ok` when a send was attempted with outcome `ok`.
`ws`'s `send` on an open socket is fire-and-forget: a delivery failure is
reported asynchronously and never thrown into the tick, so an outcome is
recorded and the loop continues. -/
structure TickResult where
  traffic : List TrafficRecord
  attempts : List (Option Bool)
deriving DecidableEq, Repr

/-- One tick: INSERT the record, then iterate over all clients
(`wss.clients.forEach`), attempting a send exactly to those whose
`readyState` is `WebSocket.OPEN`.  `sendOk i` is whether delivery to
client `i` succeeds; no outcome influences any other attempt. -/
def tickStep (recs : List TrafficRecord) (r : TrafficRecord)
    (clients : List WsClient) (sendOk : Nat → Bool) : TickResult :=
  { traffic := recs ++ [r]
    attempts := (List.range clients.length).map (fun i =>
      if (clients.getD i ⟨0⟩).readyState = WS_OPEN then some (sendOk i) else none) }

/-! ## The four authenticated routes -/

/-- Response body of GET /api/traffic/summary. -/
structure SummaryResponse where
  stats : SummaryStats
  topDomains : List DomainTotal
  protocolStats : List (String × Nat)
deriving DecidableEq, Repr

/-- GET /api/traffic/summary. -/
def summaryRoute (verify : String → Option JwtPayload) (header : Option String)
    (now : Nat) (recs : List TrafficRecord) : AuthResult SummaryResponse :=
  authenticate verify header (fun _ =>
    { stats := summaryStats now recs
      topDomains := topDomains recs
      protocolStats := groupByProtocol recs })

/-- GET /api/traffic/history. -/
def historyRoute (verify : String → Option JwtPayload) (header : Option String)
    (now : Nat) (recs : List TrafficRecord) : AuthResult (List HistoryBucket) :=
  authenticate verify header (fun _ => history now recs)

/-- GET /api/settings. -/
def getSettingsRoute (verify : String → Option JwtPayload) (header : Option String)
    (s : Store) : AuthResult (Option SettingsRow) :=
  authenticate verify header (fun _ => getSettingsHandler s)

/-- POST /api/settings; its value is the store after the UPDATE. -/
def postSettingsRoute (verify : String → Option JwtPayload) (header : Option String)
    (limit : Rat) (alerts : Bool) (s : Store) : AuthResult Store :=
  authenticate verify header (fun _ => postSettingsHandler limit alerts s)

/-! ## Lemmas about grouping -/

theorem getTotal_addToGroups_self (gs : List (String × Nat)) (d : String) (b : Nat) :
    getTotal (addToGroups gs d b) d = some ((getTotal gs d).getD 0 + b) := by
  induction gs with
  | nil => simp [addToGroups, getTotal]
  | cons g rest ih =>
    obtain ⟨d', t⟩ := g
    by_cases h : d' = d
    · subst h; simp [addToGroups, getTotal]
    · simp [addToGroups, getTotal, h, ih]

theorem getTotal_addToGroups_ne (gs : List (String × Nat)) {d d' : String} (b : Nat)
    (h : d' ≠ d) : getTotal (addToGroups gs d b) d' = getTotal gs d' := by
  induction gs with
  | nil => simp [addToGroups, getTotal, Ne.symm h]
  | cons g rest ih =>
    obtain ⟨d'', t⟩ := g
    by_cases h2 : d'' = d
    · subst h2
      simp [addToGroups, getTotal, Ne.symm h]
    · by_cases h3 : d'' = d'
      · simp [addToGroups, getTotal, h2, h3, h]
      · simp [addToGroups, getTotal, h2, h3, ih]

theorem getTotal_foldl (k : TrafficRecord → String) (f : TrafficRecord → Nat)
    (recs : List TrafficRecord) (gs : List (String × Nat)) (d : String) :
    getTotal (recs.foldl (fun gs r => addToGroups gs (k r) (f r)) gs) d =
      if recs.filter (fun r => k r = d) = [] then getTotal gs d
      else some ((getTotal gs d).getD 0 + ((recs.filter (fun r => k r = d)).map f).sum) := by
  induction recs generalizing gs with
  | nil => simp
  | cons r rest ih =>
    rw [List.foldl_cons, ih]
    by_cases h : k r = d
    · rw [List.filter_cons_of_pos (by simpa using h)]
      subst h
      by_cases h2 : rest.filter (fun r' => k r' = k r) = []
      · simp [h2, getTotal_addToGroups_self]
      · simp [h2, getTotal_addToGroups_self, Nat.add_assoc]
    · rw [List.filter_cons_of_neg (by simpa using h),
        getTotal_addToGroups_ne _ _ (fun hh => h hh.symm)]

theorem getTotal_groupBy (k : TrafficRecord → String) (f : TrafficRecord → Nat)
    (recs : List TrafficRecord) (d : String) :
    getTotal (groupBy k f recs) d =
      if recs.filter (fun r => k r = d) = [] then none
      else some (((recs.filter (fun r => k r = d)).map f).sum) := by
  rw [groupBy, getTotal_foldl]
  simp [getTotal]

theorem keys_addToGroups (gs : List (String × Nat)) (d : String) (b : Nat) :
    (addToGroups gs d b).map Prod.fst =
      if d ∈ gs.map Prod.fst then gs.map Prod.fst else gs.map Prod.fst ++ [d] := by
  induction gs with
  | nil => simp [addToGroups]
  | cons g rest ih =>
    obtain ⟨d', t⟩ := g
    by_cases h : d' = d
    · subst h; simp [addToGroups]
    · simp only [addToGroups, if_neg h, List.map_cons, ih]
      by_cases h2 : d ∈ rest.map Prod.fst
      · simp [h2, Ne.symm h]
      · simp [h2, Ne.symm h]

theorem nodup_keys_addToGroups (gs : List (String × Nat)) (d : String) (b : Nat)
    (h : (gs.map Prod.fst).Nodup) : ((addToGroups gs d b).map Prod.fst).Nodup := by
  rw [keys_addToGroups]
  by_cases h2 : d ∈ gs.map Prod.fst
  · simpa [h2] using h
  · simp only [if_neg h2]
    exact List.Nodup.append h (List.nodup_singleton d) (by simpa using h2)

theorem nodup_keys_foldl (k : TrafficRecord → String) (f : TrafficRecord → Nat)
    (recs : List TrafficRecord) (gs : List (String × Nat))
    (h : (gs.map Prod.fst).Nodup) :
    ((recs.foldl (fun gs r => addToGroups gs (k r) (f r)) gs).map Prod.fst).Nodup := by
  induction recs generalizing gs with
  | nil => simpa using h
  | cons r rest ih => exact ih _ (nodup_keys_addToGroups _ _ _ h)

theorem nodup_keys_groupBy (k : TrafficRecord → String) (f : TrafficRecord → Nat)
    (recs : List TrafficRecord) : ((groupBy k f recs).map Prod.fst).Nodup :=
  nodup_keys_foldl k f recs [] (by simp)

theorem getTotal_of_mem (gs : List (String × Nat)) (d : String) (t : Nat)
    (hnd : (gs.map Prod.fst).Nodup) (hm : (d, t) ∈ gs) : getTotal gs d = some t := by
  induction gs with
  | nil => simp at hm
  | cons g rest ih =>
    obtain ⟨d', t'⟩ := g
    rw [List.map_cons, List.nodup_cons] at hnd
    rcases List.mem_cons.mp hm with h | h
    · cases h
      simp [getTotal]
    · have hd : d' ≠ d := by
        rintro rfl
        exact hnd.1 (List.mem_map.mpr ⟨(d', t), h, rfl⟩)
      simp only [getTotal, if_neg hd]
      exact ih hnd.2 h

/-- Every entry of the grouped-domains list carries the combined bytes of
exactly the records with its domain. -/
theorem mem_groupByDomain_total (recs : List TrafficRecord) (g : String × Nat)
    (hm : g ∈ groupByDomain recs) : g.2 = totalFor recs g.1 := by
  obtain ⟨d, t⟩ := g
  have h1 : getTotal (groupByDomain recs) d = some t :=
    getTotal_of_mem _ _ _ (nodup_keys_groupBy _ _ recs) hm
  rw [groupByDomain, getTotal_groupBy] at h1
  by_cases h2 : recs.filter (fun r => r.domain = d) = []
  · simp [h2] at h1
  · simp only [if_neg h2, Option.some.injEq] at h1
    simpa [totalFor] using h1.symm

instance : IsTotal DomainTotal (fun a b => b.total_bytes ≤ a.total_bytes) :=
  ⟨fun a b => le_total b.total_bytes a.total_bytes⟩

instance : IsTrans DomainTotal (fun a b => b.total_bytes ≤ a.total_bytes) :=
  ⟨fun _ _ _ h1 h2 => le_trans h2 h1⟩

/-! ## Claim theorems -/

/-- C1: `topDomains` groups traffic records by domain, reporting per
domain the sum of `upload_bytes + download_bytes` as `total_bytes`; the
result is sorted descending by `total_bytes`, has length at most 5, and
ties are broken by grouping order (a stable sort of the grouped list).
For a store holding exactly the records (upload=100, download=200) and
(upload=300, download=50) for domain "x", the entry for "x" carries
`total_bytes = 650`. -/
theorem topDomains_spec (recs : List TrafficRecord) :
    (topDomains recs).Sorted (fun a b => b.total_bytes ≤ a.total_bytes)
    ∧ (topDomains recs).length ≤ 5
    ∧ (∀ e ∈ topDomains recs, e.total_bytes = totalFor recs e.domain)
    ∧ (∀ a b : DomainTotal, a.total_bytes = b.total_bytes →
        List.Sublist [a, b] ((groupByDomain recs).map (fun g => DomainTotal.mk g.1 g.2)) →
        List.Sublist [a, b] (sortedDomains recs))
    ∧ (∀ a b : TrafficRecord, a.domain = "x" → a.upload_bytes = 100 →
        a.download_bytes = 200 → b.domain = "x" → b.upload_bytes = 300 →
        b.download_bytes = 50 →
        topDomains [a, b] = [{ domain := "x", total_bytes := 650 }]) := by
  refine ⟨?_, ?_, ?_, ?_, ?_⟩
  · exact List.Pairwise.sublist (List.take_sublist 5 _)
      (List.sorted_insertionSort _ _)
  · simp [topDomains]
  · intro e he
    have he' : e ∈ sortedDomains recs :=
      (List.take_sublist 5 _).subset he
    have he2 : e ∈ (groupByDomain recs).map (fun g => DomainTotal.mk g.1 g.2) :=
      (List.perm_insertionSort _ _).mem_iff.mp he'
    obtain ⟨g, hg, rfl⟩ := List.mem_map.mp he2
    exact mem_groupByDomain_total recs g hg
  · intro a b hab hsub
    exact List.pair_sublist_insertionSort hab.ge hsub
  · intro a b ha1 ha2 ha3 hb1 hb2 hb3
    simp [topDomains, sortedDomains, groupByDomain, groupBy, addToGroups,
      List.insertionSort, List.orderedInsert, ha1, ha2, ha3, hb1, hb2, hb3]

/-- Witness for C1: the spec's own example store, evaluated. -/
theorem topDomains_spec_witness :
    topDomains [⟨1, 0, "s", "c", "x", "HTTPS", 100, 200⟩,
                ⟨2, 0, "s", "c", "x", "HTTPS", 300, 50⟩]
      = [{ domain := "x", total_bytes := 650 }] :=
  (topDomains_spec []).2.2.2.2 _ _ rfl rfl rfl rfl rfl rfl

/-- The hour keys of the history result are strictly ascending. -/
theorem historyHours_sorted (now : Nat) (recs : List TrafficRecord) :
    (historyHours now recs).Pairwise (· < ·) := by
  have hle : (historyHours now recs).Pairwise (· ≤ ·) :=
    List.Pairwise.sublist (List.dedup_sublist _) (List.sorted_insertionSort _ _)
  have hne : (historyHours now recs).Pairwise (· ≠ ·) := List.nodup_dedup _
  exact (hle.and hne).imp (fun h => lt_of_le_of_ne h.1 h.2)

/-- Membership in the bucket keys is exactly having a windowed record in
that hour. -/
theorem mem_historyHours (now : Nat) (recs : List TrafficRecord) (h : Nat) :
    h ∈ historyHours now recs ↔
      ∃ r ∈ recs, inWindow24 now r.timestamp = true ∧ hourOf r.timestamp = h := by
  rw [historyHours, List.mem_dedup, (List.perm_insertionSort _ _).mem_iff]
  simp only [List.mem_map, window24, List.mem_filter]
  constructor
  · rintro ⟨r, ⟨hr, hw⟩, rfl⟩
    exact ⟨r, hr, hw, rfl⟩
  · rintro ⟨r, hr, hw, rfl⟩
    exact ⟨r, ⟨hr, hw⟩, rfl⟩

/-- C2: the history operation returns one bucket per hour that has at
least one traffic record inside the trailing 24 hours; each bucket sums
`upload_bytes` and `download_bytes` separately over that hour's windowed
records; only records of the trailing 24 hours contribute; and the
buckets are ordered (strictly) ascending by hour. -/
theorem history_spec (now : Nat) (recs : List TrafficRecord) :
    (history now recs).Sorted (fun a b => a.hour < b.hour)
    ∧ (∀ b ∈ history now recs,
        b.upload = (((recs.filter (fun r => inWindow24 now r.timestamp)).filter
            (fun r => hourOf r.timestamp = b.hour)).map (fun r => r.upload_bytes)).sum
        ∧ b.download = (((recs.filter (fun r => inWindow24 now r.timestamp)).filter
            (fun r => hourOf r.timestamp = b.hour)).map (fun r => r.download_bytes)).sum
        ∧ ∃ r ∈ recs, inWindow24 now r.timestamp = true ∧ hourOf r.timestamp = b.hour)
    ∧ (∀ r ∈ recs, inWindow24 now r.timestamp = true →
        ∃ b ∈ history now recs, b.hour = hourOf r.timestamp) := by
  refine ⟨?_, ?_, ?_⟩
  · rw [history, List.Sorted, List.pairwise_map]
    exact (historyHours_sorted now recs).imp (fun h => h)
  · intro b hb
    obtain ⟨h, hh, rfl⟩ := List.mem_map.mp hb
    exact ⟨rfl, rfl, (mem_historyHours now recs h).mp hh⟩
  · intro r hr hw
    exact ⟨bucketFor now recs (hourOf r.timestamp),
      List.mem_map.mpr ⟨hourOf r.timestamp,
        (mem_historyHours now recs _).mpr ⟨r, hr, hw, rfl⟩, rfl⟩, rfl⟩

/-- Witness for C2: a store with one record two hours into the epoch,
queried 25 hours in: the record is in the window and gets a bucket. -/
theorem history_spec_witness :
    ∃ b ∈ history 90000 [⟨1, 7200, "s", "c", "x", "HTTPS", 10, 20⟩],
      b.hour = hourOf 7200 :=
  (history_spec 90000 _).2.2 ⟨1, 7200, "s", "c", "x", "HTTPS", 10, 20⟩
    (List.mem_singleton.mpr rfl) (by decide)

theorem randIndex_lt (k N n : Nat) (hN : 0 < N) (hk : k < N) (hn : 0 < n) :
    randIndex k N n < n := by
  rw [randIndex, Nat.div_lt_iff_lt_mul hN]
  calc k * n < N * n := Nat.mul_lt_mul_of_pos_right hk hn
    _ = n * N := Nat.mul_comm N n

theorem getD_mem {α : Type} (l : List α) (i : Nat) (d : α) (h : i < l.length) :
    l.getD i d ∈ l := by
  rw [List.getD_eq_getElem l d h]
  exact List.getElem_mem h

/-- C3: every record produced by the generator tick has non-negative
upload and download byte counts within their bounds (upload below 50000,
download below 500000) for every possible random draw, a domain from the
fixed 10-element pool and a protocol from the fixed 5-element pool. -/
theorem genRecord_spec (rowid now k₁ k₂ k₃ k₄ k₅ k₆ N : Nat) (hN : 0 < N)
    (h1 : k₁ < N) (h2 : k₂ < N) (h3 : k₃ < N) (h4 : k₄ < N) :
    0 ≤ (genRecord rowid now k₁ k₂ k₃ k₄ k₅ k₆ N).upload_bytes
    ∧ 0 ≤ (genRecord rowid now k₁ k₂ k₃ k₄ k₅ k₆ N).download_bytes
    ∧ (genRecord rowid now k₁ k₂ k₃ k₄ k₅ k₆ N).upload_bytes < 50000
    ∧ (genRecord rowid now k₁ k₂ k₃ k₄ k₅ k₆ N).download_bytes < 500000
    ∧ (genRecord rowid now k₁ k₂ k₃ k₄ k₅ k₆ N).domain ∈ domains
    ∧ (genRecord rowid now k₁ k₂ k₃ k₄ k₅ k₆ N).protocol ∈ protocols
    ∧ domains.length = 10 ∧ protocols.length = 5 := by
  refine ⟨Nat.zero_le _, Nat.zero_le _, ?_, ?_, ?_, ?_, by decide, by decide⟩
  · exact randIndex_lt k₃ N 50000 hN h3 (by decide)
  · exact randIndex_lt k₄ N 500000 hN h4 (by decide)
  · exact getD_mem domains _ "" (randIndex_lt k₁ N domains.length hN h1 (by decide))
  · exact getD_mem protocols _ "" (randIndex_lt k₂ N protocols.length hN h2 (by decide))

/-- Witness for C3: a concrete draw. -/
theorem genRecord_spec_witness :
    (genRecord 1 0 3 3 3 3 3 3 7).upload_bytes < 50000
    ∧ (genRecord 1 0 3 3 3 3 3 3 7).domain ∈ domains :=
  ⟨(genRecord_spec 1 0 3 3 3 3 3 3 7 (by decide) (by decide) (by decide)
      (by decide) (by decide)).2.2.1,
   (genRecord_spec 1 0 3 3 3 3 3 3 7 (by decide) (by decide) (by decide)
      (by decide) (by decide)).2.2.2.2.1⟩

/-- C4: for every authenticated route and request: with no bearer token,
or a token failing verification, the request is rejected 401 and the
handler is not executed (the outcome is independent of the handler);
otherwise the decoded identity is attached and the handler runs.  The
final conjunct records that all four authenticated routes are exactly
`authenticate` around their handlers. -/
theorem authenticate_spec (verify : String → Option JwtPayload)
    (header : Option String) :
    (extractToken header = none →
      ∀ (α : Type) (h h' : JwtPayload → α),
        authenticate verify header h = .rejected 401 "Unauthorized"
        ∧ authenticate verify header h = authenticate verify header h')
    ∧ (∀ t, extractToken header = some t → verify t = none →
      ∀ (α : Type) (h h' : JwtPayload → α),
        authenticate verify header h = .rejected 401 "Invalid token"
        ∧ authenticate verify header h = authenticate verify header h')
    ∧ (∀ t u, extractToken header = some t → verify t = some u →
      ∀ (α : Type) (h : JwtPayload → α),
        authenticate verify header h = .handled u (h u))
    ∧ (∀ now recs s limit alerts,
        summaryRoute verify header now recs
          = authenticate verify header (fun _ =>
              { stats := summaryStats now recs
                topDomains := topDomains recs
                protocolStats := groupByProtocol recs })
        ∧ historyRoute verify header now recs
          = authenticate verify header (fun _ => history now recs)
        ∧ getSettingsRoute verify header s
          = authenticate verify header (fun _ => getSettingsHandler s)
        ∧ postSettingsRoute verify header limit alerts s
          = authenticate verify header (fun _ => postSettingsHandler limit alerts s)) := by
  refine ⟨?_, ?_, ?_, ?_⟩
  · intro he α h h'
    exact ⟨by simp [authenticate, he], by simp [authenticate, he]⟩
  · intro t he hv α h h'
    exact ⟨by simp [authenticate, he, hv], by simp [authenticate, he, hv]⟩
  · intro t u he hv α h
    simp [authenticate, he, hv]
  · intro now recs s limit alerts
    exact ⟨rfl, rfl, rfl, rfl⟩

/-- Witness for C4: a token that fails verification is rejected 401. -/
theorem authenticate_spec_witness :
    authenticate (fun _ => none) (some "Bearer tok") (fun _ => (0 : Nat))
      = AuthResult.rejected 401 "Invalid token" :=
  ((authenticate_spec (fun _ => none) (some "Bearer tok")).2.1 "tok" rfl rfl
    Nat (fun _ => 0) (fun _ => 0)).1

/-- C5: a settings update round-trips: an authenticated POST of
`{data_limit_gb, alerts_enabled}` followed with no interleaving write by
an authenticated GET returns exactly the values the POST wrote (the
boolean is stored as the integer `alerts ? 1 : 0`). -/
theorem settings_roundtrip (verify : String → Option JwtPayload)
    (h1 h2 : Option String) (t1 t2 : String) (u1 u2 : JwtPayload)
    (limit : Rat) (alerts : Bool) (s : Store)
    (hs : settingsInv s)
    (he1 : extractToken h1 = some t1) (hv1 : verify t1 = some u1)
    (he2 : extractToken h2 = some t2) (hv2 : verify t2 = some u2) :
    postSettingsRoute verify h1 limit alerts s
      = .handled u1 (postSettingsHandler limit alerts s)
    ∧ getSettingsRoute verify h2 (postSettingsHandler limit alerts s)
      = .handled u2 (some ⟨1, limit, if alerts then 1 else 0⟩) := by
  obtain ⟨row, hst, hid⟩ := hs
  constructor
  · simp [postSettingsRoute, authenticate, he1, hv1]
  · simp only [getSettingsRoute, authenticate, he2, hv2]
    simp [getSettingsHandler, postSettingsHandler, hst, hid, List.find?_cons]

/-- Witness for C5: writing limit 50 with alerts off, then reading. -/
theorem settings_roundtrip_witness :
    getSettingsRoute (fun _ => some ⟨7, "u"⟩) (some "Bearer t")
        (postSettingsHandler 50 false
          { traffic := [], settingsTable := [⟨1, 100, 1⟩], users := [] })
      = .handled ⟨7, "u"⟩
          (some { id := 1, data_limit_gb := 50, alerts_enabled := 0 }) :=
  (settings_roundtrip (fun _ => some ⟨7, "u"⟩) (some "Bearer t") (some "Bearer t")
    "t" "t" ⟨7, "u"⟩ ⟨7, "u"⟩ 50 false
    { traffic := [], settingsTable := [⟨1, 100, 1⟩], users := [] }
    ⟨⟨1, 100, 1⟩, rfl, rfl⟩ rfl rfl rfl rfl).2

/-- C6: during one generator tick, an attempted delivery is made to every
currently-open subscriber with an outcome independent of every other
subscriber's outcome; the inserted record stays inserted; and the next
tick proceeds regardless of any failure pattern. -/
theorem tick_broadcast_spec (recs : List TrafficRecord) (r : TrafficRecord)
    (clients : List WsClient) (sendOk : Nat → Bool) (i : Nat)
    (hi : i < clients.length)
    (hopen : (clients.getD i ⟨0⟩).readyState = WS_OPEN) :
    (tickStep recs r clients sendOk).attempts.getD i none = some (sendOk i)
    ∧ (∀ sendOk' : Nat → Bool, sendOk' i = sendOk i →
        (tickStep recs r clients sendOk').attempts.getD i none = some (sendOk i))
    ∧ r ∈ (tickStep recs r clients sendOk).traffic
    ∧ recs <+: (tickStep recs r clients sendOk).traffic
    ∧ (∀ (r' : TrafficRecord) (clients' : List WsClient) (sendOk' : Nat → Bool),
        r ∈ (tickStep (tickStep recs r clients sendOk).traffic r' clients' sendOk').traffic
        ∧ r' ∈ (tickStep (tickStep recs r clients sendOk).traffic r' clients' sendOk').traffic) := by
  have key : ∀ g : Nat → Bool,
      (tickStep recs r clients g).attempts.getD i none =
        if (clients.getD i ⟨0⟩).readyState = WS_OPEN then some (g i) else none := by
    intro g
    have hlen : i < ((List.range clients.length).map (fun j =>
        if (clients.getD j ⟨0⟩).readyState = WS_OPEN then some (g j) else none)).length := by
      simpa using hi
    rw [tickStep, List.getD_eq_getElem _ _ hlen, List.getElem_map,
      List.getElem_range]
  refine ⟨?_, ?_, ?_, ?_, ?_⟩
  · rw [key sendOk, if_pos hopen]
  · intro sendOk' hsame
    rw [key sendOk', if_pos hopen, hsame]
  · simp [tickStep]
  · exact List.prefix_append recs [r]
  · intro r' clients' sendOk'
    exact ⟨by simp [tickStep], by simp [tickStep]⟩

/-- Witness for C6: one open client whose send fails; the attempt is
recorded and nothing else breaks. -/
theorem tick_broadcast_spec_witness :
    (tickStep [] ⟨1, 0, "s", "c", "x", "HTTPS", 1, 2⟩ [⟨1⟩]
        (fun _ => false)).attempts.getD 0 none = some false :=
  (tick_broadcast_spec [] ⟨1, 0, "s", "c", "x", "HTTPS", 1, 2⟩ [⟨1⟩]
    (fun _ => false) 0 (by decide) rfl).1

/-- C7: a login with an unknown email and a login with a known email but
failing password hash produce the identical 401 "Invalid credentials"
response: the two failure causes are indistinguishable. -/
theorem login_indistinguishable (users users' : List UserRow)
    (cmp cmp' : String → String → Bool)
    (email email' pw pw' secret secret' : String) (u : UserRow)
    (hnone : findUser users email = none)
    (hsome : findUser users' email' = some u)
    (hfail : cmp' pw' u.password_hash = false) :
    login users cmp email pw secret = .failure 401 "Invalid credentials"
    ∧ login users' cmp' email' pw' secret' = .failure 401 "Invalid credentials"
    ∧ login users cmp email pw secret = login users' cmp' email' pw' secret' := by
  have a : login users cmp email pw secret = .failure 401 "Invalid credentials" := by
    simp [login, hnone]
  have b : login users' cmp' email' pw' secret' = .failure 401 "Invalid credentials" := by
    simp [login, hsome, hfail]
  exact ⟨a, b, a.trans b.symm⟩

/-- Witness for C7: empty user table vs. one user with a wrong password. -/
theorem login_indistinguishable_witness :
    login [] (fun _ _ => false) "a@b" "pw" "sec"
      = LoginResult.failure 401 "Invalid credentials" :=
  (login_indistinguishable [] [⟨1, "u", "a@b", "h"⟩] (fun _ _ => false)
    (fun _ _ => false) "a@b" "a@b" "pw" "pw" "sec" "sec" ⟨1, "u", "a@b", "h"⟩
    rfl rfl rfl).1

/-- C8: traffic records are only ever inserted — every operation leaves
the existing traffic list a prefix of the new one, and changes it at most
by appending one record — and the settings table always keeps exactly one
row with id 1, mutated only in place. -/
theorem writePath_spec (op : Op) (s : Store) (hs : settingsInv s) :
    settingsInv (applyOp op s)
    ∧ s.traffic <+: (applyOp op s).traffic
    ∧ ((applyOp op s).traffic = s.traffic
        ∨ ∃ r, (applyOp op s).traffic = s.traffic ++ [r]) := by
  obtain ⟨row, hst, hid⟩ := hs
  cases op with
  | postSettings l a =>
    refine ⟨⟨⟨row.id, l, if a then 1 else 0⟩, ?_, hid⟩, ?_, Or.inl rfl⟩
    · simp [applyOp, postSettingsHandler, hst, hid]
    · exact List.prefix_refl _
  | tick r =>
    exact ⟨⟨row, by simpa [applyOp] using hst, hid⟩,
      List.prefix_append s.traffic [r], Or.inr ⟨r, rfl⟩⟩
  | summary now => exact ⟨⟨row, hst, hid⟩, List.prefix_refl _, Or.inl rfl⟩
  | histQuery now => exact ⟨⟨row, hst, hid⟩, List.prefix_refl _, Or.inl rfl⟩
  | getSettings => exact ⟨⟨row, hst, hid⟩, List.prefix_refl _, Or.inl rfl⟩
  | login e p => exact ⟨⟨row, hst, hid⟩, List.prefix_refl _, Or.inl rfl⟩
  | signup u => exact ⟨⟨row, by simpa [applyOp] using hst, hid⟩,
      List.prefix_refl _, Or.inl rfl⟩

/-- Witness for C8: a tick on a freshly seeded store. -/
theorem writePath_spec_witness :
    settingsInv (applyOp (Op.tick ⟨9, 0, "s", "c", "x", "HTTPS", 1, 2⟩)
      { traffic := [], settingsTable := [⟨1, 100, 1⟩], users := [] }) :=
  (writePath_spec (Op.tick ⟨9, 0, "s", "c", "x", "HTTPS", 1, 2⟩)
    { traffic := [], settingsTable := [⟨1, 100, 1⟩], users := [] }
    ⟨⟨1, 100, 1⟩, rfl, rfl⟩).1

/-- C9: when no traffic record falls inside the trailing 30-day window,
the summary stats report `NULL` (SQL `SUM` over no rows) for both byte
totals, while the packet count is 0. -/
theorem summaryStats_empty_window (now : Nat) (recs : List TrafficRecord)
    (h : ∀ r ∈ recs, inWindow30 now r.timestamp = false) :
    summaryStats now recs
      = { total_upload := none, total_download := none, total_packets := 0 } := by
  have hf : recs.filter (fun r => inWindow30 now r.timestamp) = [] :=
    List.filter_eq_nil_iff.mpr (fun r hr => by simp [h r hr])
  simp [summaryStats, hf, sqlSum]

/-- Witness for C9: one record exactly 30 days old is outside the strict
window, so the sums are NULL and the count 0. -/
theorem summaryStats_empty_window_witness :
    summaryStats 2592000 [⟨1, 0, "s", "c", "x", "HTTPS", 10, 20⟩]
      = { total_upload := none, total_download := none, total_packets := 0 } :=
  summaryStats_empty_window 2592000 _ (by decide)

/-- C10: every token issued by a successful login carries no expiry
claim, so its verification succeeds at every later time. -/
theorem login_token_no_expiry (users : List UserRow)
    (cmp : String → String → Bool) (email pw secret : String)
    (t : JwtToken) (un em : String)
    (h : login users cmp email pw secret = .success t un em) :
    t.exp = none ∧ ∀ now, jwtVerify t secret now = some t.payload := by
  unfold login at h
  cases hf : findUser users email with
  | none => simp [hf] at h
  | some u =>
    simp only [hf] at h
    cases hc : cmp pw u.password_hash with
    | false => simp [hc] at h
    | true =>
      simp only [hc, if_pos] at h
      injection h with hT hU hE
      subst hT
      exact ⟨rfl, fun now => by simp [jwtVerify, jwtSign]⟩

/-- Witness for C10: a concrete successful login; its token verifies at
an arbitrary later time. -/
theorem login_token_no_expiry_witness :
    jwtVerify (jwtSign ⟨1, "u"⟩ "sec") "sec" 999999999
      = some (jwtSign ⟨1, "u"⟩ "sec").payload :=
  (login_token_no_expiry [⟨1, "u", "a@b", "h"⟩] (fun _ _ => true) "a@b" "pw"
    "sec" (jwtSign ⟨1, "u"⟩ "sec") "u" "a@b" rfl).2 999999999

end SmartTraffic
